import Mathlib

/-!
Shallow embedding of the next-template repository, covering:

* the Zod validation schemas in `src/lib/validations/auth.ts`
  (`signInSchema`, `signUpSchema`) and the safeParse issue collection;
* the form-state logic of `src/lib/hooks/use-auth-form.ts` and the
  sign-in / sign-up pages (`handleChange`, `handleSubmit`);
* the Prisma migrate adapter of `prisma.config.ts`;
* the Bicep infrastructure templates (`infrastructure/main.bicep` and the
  modules `identity`, `acr`, `monitoring`, `postgres`, `container-app`).

JavaScript strings are modelled as Lean `String`, string length as the
number of characters, and object maps with possibly-absent keys as
`Option`-valued functions.
-/

namespace NextTemplate

/-! ### Email well-formedness

`z.email(...)` in zod v4 validates against the anchored regular expression

  (caret)(?!\.)(?!.*\.\.)([A-Za-z0-9_xxx+\-\.]*)[A-Za-z0-9_+-]@([A-Za-z0-9][A-Za-z0-9\-]*\.)+[A-Za-z]\x7b2,\x7d$

(where xxx stands for the apostrophe character, code 39).  Because no
character class contains the at sign, a match contains exactly one at sign;
the two lookaheads forbid a leading dot and any two consecutive dots in the
whole string.  `isEmail` implements this predicate directly on the
character list of the string. -/

/-- Splits a character list at every occurrence of `sep`, like the
JavaScript `String.prototype.split` with a single-character separator. -/
def splitChar (sep : Char) : List Char → List (List Char)
  | [] => [[]]
  | c :: rest =>
    match splitChar sep rest, decide (c = sep) with
    | r, true => [] :: r
    | [], false => [[c]]
    | h :: t, false => (c :: h) :: t

/-- No two consecutive dots anywhere in the list (the `(?!.*\.\.)`
lookahead). -/
def noDoubleDot : List Char → Bool
  | [] => true
  | [_] => true
  | a :: b :: rest => !(a = '.' && b = '.') && noDoubleDot (b :: rest)

/-- Characters allowed in the local part: `[A-Za-z0-9_xxx+\-\.]` where xxx is
the apostrophe (code 39). -/
def isLocalChar (c : Char) : Bool :=
  c.isAlphanum || c = '_' || c = Char.ofNat 39 || c = '+' || c = '-' || c = '.'

/-- Characters allowed as the last character of the local part:
`[A-Za-z0-9_+-]`. -/
def isLocalLastChar (c : Char) : Bool :=
  c.isAlphanum || c = '_' || c = '+' || c = '-'

/-- The local part `([local chars]*)[A-Za-z0-9_+-]`: nonempty, every
character a local character, the last one in the restricted class. -/
def localOk (cs : List Char) : Bool :=
  !cs.isEmpty && cs.all isLocalChar &&
    (match cs.getLast? with
     | some c => isLocalLastChar c
     | none => false)

/-- A domain label `[A-Za-z0-9][A-Za-z0-9\-]*`. -/
def labelOk : List Char → Bool
  | [] => false
  | c :: rest => c.isAlphanum && rest.all (fun x => x.isAlphanum || x = '-')

/-- The final `[A-Za-z]\x7b2,\x7d` part: at least two characters, all
letters. -/
def tldOk (cs : List Char) : Bool :=
  decide (2 ≤ cs.length) && cs.all Char.isAlpha

/-- The domain `([A-Za-z0-9][A-Za-z0-9\-]*\.)+[A-Za-z]\x7b2,\x7d`: splitting
on dots gives at least one label followed by the letters-only tail. -/
def domainOk (cs : List Char) : Bool :=
  match (splitChar '.' cs).reverse with
  | tld :: labels => !labels.isEmpty && tldOk tld && labels.all labelOk
  | [] => false

/-- The zod v4 email predicate on a string, see the module comment above. -/
def isEmail (s : String) : Bool :=
  let cs := s.data
  noDoubleDot cs &&
    (match cs.head? with
     | some c => !(c = '.')
     | none => true) &&
    (match splitChar '@' cs with
     | [lo, dom] => localOk lo && domainOk dom
     | _ => false)

/-! ### Character-class checks used by the password regexes -/

/-- `/[A-Z]/.test` — some character in the range A-Z. -/
def containsUpper (s : String) : Bool :=
  s.data.any fun c => 'A' ≤ c && c ≤ 'Z'

/-- `/[a-z]/.test` — some character in the range a-z. -/
def containsLower (s : String) : Bool :=
  s.data.any fun c => 'a' ≤ c && c ≤ 'z'

/-- `/[0-9]/.test` — some character in the range 0-9. -/
def containsDigit (s : String) : Bool :=
  s.data.any fun c => '0' ≤ c && c ≤ '9'

/-! ### Schemas as data

A schema object (`z.object`) maps each field to a chain of checks; zod
collects one issue per failing check, in field order then chain order. -/

/-- The form fields occurring in the auth schemas. -/
inductive FormField
  | name
  | email
  | password
deriving DecidableEq, Repr

/-- A single zod string check: a predicate on the field value and the issue
message reported when it fails. -/
structure FieldCheck where
  ok : String → Bool
  msg : String

/-- A schema: fields in declaration order, each with its chain of checks. -/
def Schema := List (FormField × List FieldCheck)

/-- A form-data record; the sign-in form leaves `name` unused. -/
structure FormData where
  name : String
  email : String
  password : String
deriving DecidableEq, Repr

/-- Field projection. -/
def FormData.get (d : FormData) : FormField → String
  | .name => d.name
  | .email => d.email
  | .password => d.password

/-- Functional field update (the spread `\x7b ...prev, [field]: value \x7d`). -/
def FormData.set (d : FormData) : FormField → String → FormData
  | .name, v => { d with name := v }
  | .email, v => { d with email := v }
  | .password, v => { d with password := v }

/-- Issues produced by one field: one `(field, message)` pair per failing
check, in chain order. -/
def checkIssues (f : FormField) (v : String) : List FieldCheck → List (FormField × String)
  | [] => []
  | c :: cs => (cond (c.ok v) [] [(f, c.msg)]) ++ checkIssues f v cs

/-- The issue list of `schema.safeParse(data)`; parsing succeeds iff it is
empty. -/
def safeParse (sch : Schema) (d : FormData) : List (FormField × String) :=
  match sch with
  | [] => []
  | (f, cs) :: rest => checkIssues f (d.get f) cs ++ safeParse rest d

/-- `signInSchema` from `src/lib/validations/auth.ts`:
email must be well formed, password nonempty. -/
def signInSchema : Schema :=
  [(.email, [⟨isEmail, "Invalid email address"⟩]),
   (.password, [⟨fun s => decide (1 ≤ s.length), "Password is required"⟩])]

/-- `signUpSchema` from `src/lib/validations/auth.ts`:
name length in [2,100], well-formed email, password of length at least 8
containing an uppercase letter, a lowercase letter and a digit. -/
def signUpSchema : Schema :=
  [(.name, [⟨fun s => decide (2 ≤ s.length), "Name must be at least 2 characters"⟩,
            ⟨fun s => decide (s.length ≤ 100), "Name must be less than 100 characters"⟩]),
   (.email, [⟨isEmail, "Invalid email address"⟩]),
   (.password, [⟨fun s => decide (8 ≤ s.length), "Password must be at least 8 characters"⟩,
                ⟨containsUpper, "Password must contain at least one uppercase letter"⟩,
                ⟨containsLower, "Password must contain at least one lowercase letter"⟩,
                ⟨containsDigit, "Password must contain at least one number"⟩])]

/-! ### Form state and handlers

`useAuthForm` (`src/lib/hooks/use-auth-form.ts`) and the sign-in / sign-up
pages keep four pieces of React state: the form data, a map of field errors,
a submit error string and a loading flag.  `handleChange` and `handleSubmit`
are modelled as pure state transformers; the asynchronous auth-client call
made on submit is a parameter (`AuthResult`), and the externally visible
effects (whether the callback was invoked, where the router navigated) are
returned alongside the new state. -/

/-- The value the awaited `onSubmit` / auth-client call resolves with:
either no error, or an error object with an optional message. -/
inductive AuthResult
  | ok
  | err (msg : Option String)
deriving DecidableEq, Repr

/-- React state of the auth form. -/
structure FormState where
  formData : FormData
  errors : FormField → Option String
  submitError : String
  loading : Bool

/-- Externally visible effects of one `handleSubmit` run. -/
structure SubmitEffects where
  submitCalled : Bool
  navigatedTo : Option String
deriving DecidableEq, Repr

/-- JavaScript truthiness of `errors[field]`: present and not the empty
string. -/
def truthy : Option String → Bool
  | some m => !(m = "")
  | none => false

/-- `handleChange`: set the named field to the new value and, when the
field currently has a truthy error, clear exactly that error
(`setErrors((prev) => (\x7b ...prev, [field]: undefined \x7d))`). -/
def handleChange (f : FormField) (v : String) (s : FormState) : FormState :=
  let fd := s.formData.set f v
  if truthy (s.errors f) then
    { s with formData := fd, errors := fun g => if g = f then none else s.errors g }
  else
    { s with formData := fd }

/-- The field-error map built from an issue list: the submit handler loops
over the issues assigning `fieldErrors[field] = issue.message`, so the last
message for a field wins and fields without issues stay absent. -/
def errorsOfIssues (issues : List (FormField × String)) : FormField → Option String :=
  fun f => ((issues.filter fun i => i.1 = f).getLast?).map (·.2)

/-- `handleSubmit`, parameterised by the schema, the fallback error message
(`"An error occurred"` in the hook, `"Failed to sign in"` / `"Failed to
sign up"` in the pages), the redirect target, and the auth-call outcome.
It clears `submitError` and `errors`, validates; on validation failure it
records the field errors and returns without calling the auth client; on
success it sets `loading`, calls the client, and either records the error
message (resetting `loading`) or navigates to the redirect target. -/
def handleSubmit (sch : Schema) (defaultMsg redirectTo : String)
    (res : AuthResult) (s : FormState) : FormState × SubmitEffects :=
  let issues := safeParse sch s.formData
  if issues = [] then
    match res with
    | .err m =>
      ({ s with submitError := m.getD defaultMsg,
                errors := fun _ => none,
                loading := false },
       ⟨true, none⟩)
    | .ok =>
      ({ s with submitError := "",
                errors := fun _ => none,
                loading := true },
       ⟨true, some redirectTo⟩)
  else
    ({ s with submitError := "",
              errors := errorsOfIssues issues },
     ⟨false, none⟩)

/-- The submit handler produced by `useAuthForm` (default message
`"An error occurred"`, default redirect `"/"`). -/
def useAuthFormSubmit (sch : Schema) (redirectTo : String) :
    AuthResult → FormState → FormState × SubmitEffects :=
  handleSubmit sch "An error occurred" redirectTo

/-- `handleSubmit` of `src/app/sign-in/page.tsx`. -/
def signInPageSubmit : AuthResult → FormState → FormState × SubmitEffects :=
  handleSubmit signInSchema "Failed to sign in" "/"

/-- `handleSubmit` of `src/app/sign-up/page.tsx`. -/
def signUpPageSubmit : AuthResult → FormState → FormState × SubmitEffects :=
  handleSubmit signUpSchema "Failed to sign up" "/"

/-! ### Prisma configuration (`prisma.config.ts`)

The migrate adapter reads `process.env.DATABASE_URL` (absent variables are
`undefined`, modelled as `none`) and throws when it is falsy — absent or
the empty string — otherwise it builds a `PrismaPg` adapter with that
connection string. -/

/-- The migrate adapter of `prisma.config.ts`; the success value is the
connection string handed to `PrismaPg`. -/
def prismaMigrateAdapter (databaseUrl : Option String) : Except String String :=
  match databaseUrl with
  | none => .error "DATABASE_URL environment variable is not set"
  | some cs =>
    if cs = "" then .error "DATABASE_URL environment variable is not set"
    else .ok cs

/-! ### Infrastructure templates (Bicep)

The modules under `infrastructure/modules` (plus the PostgreSQL module and
the user-assigned identity module) form five deployment stages.  Values in
the templates are either references to a secret of the container app, to a
template parameter, or string literals. -/

/-- Where an environment variable of the container gets its value. -/
inductive EnvValueSource
  | secretRef (secretName : String)
  | paramRef (paramName : String)
  | literal (v : String)
deriving DecidableEq, Repr

/-- One entry of the container `env` block. -/
structure EnvEntry where
  name : String
  src : EnvValueSource
deriving DecidableEq, Repr

/-- The `env` block of the `nextjs` container in
`infrastructure/modules/container-app.bicep`. -/
def containerAppEnv : List EnvEntry :=
  [⟨"DATABASE_URL", .secretRef "database-url"⟩,
   ⟨"BETTER_AUTH_SECRET", .secretRef "better-auth-secret"⟩,
   ⟨"BETTER_AUTH_URL", .paramRef "betterAuthUrl"⟩,
   ⟨"APPLICATIONINSIGHTS_CONNECTION_STRING", .paramRef "appInsightsConnectionString"⟩,
   ⟨"NODE_ENV", .literal "production"⟩]

/-- The `secrets` list of the container app: secret name to the template
parameter supplying its value. -/
def containerAppSecrets : List (String × String) :=
  [("database-url", "databaseUrl"),
   ("better-auth-secret", "betterAuthSecret")]

/-- An env entry is a deployment input (rather than a hard-coded literal)
when its value comes from a secret or a template parameter. -/
def EnvEntry.isInput (e : EnvEntry) : Bool :=
  match e.src with
  | .secretRef _ => true
  | .paramRef _ => true
  | .literal _ => false

/-- The five deployment stages of the infrastructure graph. -/
inductive Stage
  | identity
  | registry
  | monitoring
  | database
  | compute
deriving DecidableEq, Repr

/-- Position of a stage in the deployment order. -/
def Stage.idx : Stage → Nat
  | .identity => 0
  | .registry => 1
  | .monitoring => 2
  | .database => 3
  | .compute => 4

/-- A module parameter fed from the output of an earlier stage. -/
structure CrossRef where
  param : String
  src : Stage
  output : String
deriving DecidableEq, Repr

/-- The `output` declarations of each stage module:
identity (`identity.bicep`), registry (`modules/acr.bicep`), monitoring
(`modules/monitoring.bicep`), database (the PostgreSQL flexible-server
module) and compute (`modules/container-app.bicep`). -/
def stageOutputs : Stage → List String
  | .identity => ["identityId", "principalId", "clientId"]
  | .registry => ["loginServer", "name", "id"]
  | .monitoring => ["logAnalyticsWorkspaceId", "logAnalyticsCustomerId",
                    "logAnalyticsSharedKey", "appInsightsConnectionString",
                    "appInsightsInstrumentationKey"]
  | .database => ["serverName", "serverFqdn", "databaseName", "connectionString"]
  | .compute => ["fqdn", "url", "name"]

/-- The cross-stage inputs of each stage module, read off its parameter
list: the registry consumes the identity principal
(`param identityPrincipalId`, used by the `acrPullRole` role assignment);
the compute module consumes the identity id, the registry login server,
the three monitoring outputs and the database connection string
(`param databaseUrl`).  Identity, monitoring and database consume only
deployment parameters. -/
def stageDeps : Stage → List CrossRef
  | .identity => []
  | .registry => [⟨"identityPrincipalId", .identity, "principalId"⟩]
  | .monitoring => []
  | .database => []
  | .compute =>
      [⟨"identityId", .identity, "identityId"⟩,
       ⟨"acrLoginServer", .registry, "loginServer"⟩,
       ⟨"logAnalyticsCustomerId", .monitoring, "logAnalyticsCustomerId"⟩,
       ⟨"logAnalyticsSharedKey", .monitoring, "logAnalyticsSharedKey"⟩,
       ⟨"appInsightsConnectionString", .monitoring, "appInsightsConnectionString"⟩,
       ⟨"databaseUrl", .database, "connectionString"⟩]

/-- A resource declaration together with the deployment parameters it
references (directly or through a template variable). -/
structure ResourceDecl where
  resource : String
  refs : List String
deriving DecidableEq, Repr

/-- Resource declarations of the template set and the deployment parameters
each one consumes:

* `storageAccount`, `appServicePlan`, `functionApp` are from
  `infrastructure/main.bicep` (name built from `appName`, `environment` and
  the region code derived from `location`; SKU ternaries on `environment`;
  `nodeVersion` and `enableApplicationInsights` in the function app);
* `postgresServer` is from the PostgreSQL module (SKU lookup on
  `environment`, administrator credentials);
* `containerApp` is from `modules/container-app.bicep` (scaling ternaries
  on `environment`, image, secrets and env values);
* `acr` and `acrPullRole` are from `modules/acr.bicep`. -/
def deploymentResources : List ResourceDecl :=
  [⟨"storageAccount", ["appName", "environment", "location"]⟩,
   ⟨"appServicePlan", ["appName", "environment", "location"]⟩,
   ⟨"functionApp", ["appName", "environment", "location", "nodeVersion",
                    "enableApplicationInsights"]⟩,
   ⟨"postgresServer", ["serverName", "location", "environment",
                       "administratorLogin", "administratorPassword"]⟩,
   ⟨"database", ["databaseName"]⟩,
   ⟨"containerApp", ["containerAppName", "location", "environment",
                     "identityId", "acrLoginServer", "containerImage",
                     "databaseUrl", "betterAuthSecret", "betterAuthUrl",
                     "appInsightsConnectionString"]⟩,
   ⟨"acr", ["acrName", "location", "sku"]⟩,
   ⟨"acrPullRole", ["identityPrincipalId"]⟩]

/-- SKU row of the PostgreSQL module. -/
structure DbSku where
  name : String
  tier : String
  storageSizeGB : Nat
deriving DecidableEq, Repr

/-- The `skuConfig` object of the PostgreSQL module. -/
def skuConfig : List (String × DbSku) :=
  [("dev", ⟨"Standard_B1ms", "Burstable", 32⟩),
   ("test", ⟨"Standard_B1ms", "Burstable", 32⟩),
   ("staging", ⟨"Standard_B2s", "Burstable", 64⟩),
   ("prod", ⟨"Standard_D2s_v3", "GeneralPurpose", 128⟩)]

/-- The values admitted by the `@allowed` decorator (dev, test, staging,
prod) on the `environment` parameter. -/
def allowedEnvironments : List String :=
  ["dev", "test", "staging", "prod"]

/-- `skuConfig[environment]`: property lookup on the object. -/
def lookupSku (environment : String) : Option DbSku :=
  (skuConfig.find? fun p => p.1 = environment).map (·.2)

/-- Bicep `take(s, n)` on strings: the first `n` characters. -/
def bicepTake (s : String) (n : Nat) : String :=
  ⟨s.data.take n⟩

/-- The `sanitizedAppName` variable from `infrastructure/main.bicep`:
`replace` of the lowercased application name, deleting every hyphen. -/
def sanitizedAppName (appName : String) : String :=
  ⟨(appName.toLower).data.filter fun c => !(c = '-')⟩

/-- `storageAccountName` from `infrastructure/main.bicep`: `take` of the
interpolation of the prefix st, the sanitized application name, the
environment and the region code, truncated to 24 characters. -/
def storageAccountName (appName environment regionCode : String) : String :=
  bicepTake ("st" ++ sanitizedAppName appName ++ environment ++ regionCode) 24

/-! ### Helper lemmas about issue lists -/

/-- A field named in an issue list receives the last message recorded for
it, and that pair is one of the issues. -/
lemma errorsOfIssues_mem_of_mem (l : List (FormField × String)) (f : FormField)
    (h : f ∈ l.map Prod.fst) :
    ∃ m, errorsOfIssues l f = some m ∧ (f, m) ∈ l := by
  have hne : (l.filter fun i => i.1 = f) ≠ [] := by
    intro hnil
    rcases List.mem_map.mp h with ⟨p, hp, hpf⟩
    have := (List.filter_eq_nil_iff.mp hnil) p hp
    simp [hpf] at this
  obtain ⟨p, hp⟩ := Option.isSome_iff_exists.mp (List.getLast?_isSome.mpr hne)
  have hmem := List.mem_of_mem_getLast? hp
  have hpf : p.1 = f := by
    have := (List.mem_filter.mp hmem).2
    simpa using this
  refine ⟨p.2, ?_, ?_⟩
  · simp [errorsOfIssues, hp]
  · have := (List.mem_filter.mp hmem).1
    simpa [← hpf] using this

/-- A field not named in the issue list gets no error. -/
lemma errorsOfIssues_eq_none_of_not_mem (l : List (FormField × String)) (f : FormField)
    (h : f ∉ l.map Prod.fst) :
    errorsOfIssues l f = none := by
  have : (l.filter fun i => i.1 = f) = [] := by
    refine List.filter_eq_nil_iff.mpr ?_
    intro p hp hpf
    exact h (List.mem_map.mpr ⟨p, hp, by simpa using hpf⟩)
  simp [errorsOfIssues, this]

/-! ### Claim theorems -/

/-- C1: `signUpSchema` accepts a record iff the name has between 2 and 100
characters, the email is well formed, and the password has at least 8
characters with an uppercase letter, a lowercase letter and a digit;
each violated constraint contributes its field message to the issue
list. -/
theorem signUpSchema_spec (d : FormData) :
    (safeParse signUpSchema d = [] ↔
      (2 ≤ d.name.length ∧ d.name.length ≤ 100 ∧ isEmail d.email = true ∧
       8 ≤ d.password.length ∧ containsUpper d.password = true ∧
       containsLower d.password = true ∧ containsDigit d.password = true)) ∧
    (¬ 2 ≤ d.name.length →
      (FormField.name, "Name must be at least 2 characters") ∈ safeParse signUpSchema d) ∧
    (¬ d.name.length ≤ 100 →
      (FormField.name, "Name must be less than 100 characters") ∈ safeParse signUpSchema d) ∧
    (isEmail d.email = false →
      (FormField.email, "Invalid email address") ∈ safeParse signUpSchema d) ∧
    (¬ 8 ≤ d.password.length →
      (FormField.password, "Password must be at least 8 characters") ∈ safeParse signUpSchema d) ∧
    (containsUpper d.password = false →
      (FormField.password, "Password must contain at least one uppercase letter") ∈ safeParse signUpSchema d) ∧
    (containsLower d.password = false →
      (FormField.password, "Password must contain at least one lowercase letter") ∈ safeParse signUpSchema d) ∧
    (containsDigit d.password = false →
      (FormField.password, "Password must contain at least one number") ∈ safeParse signUpSchema d) := by
  by_cases h1 : 2 ≤ d.name.length <;>
    by_cases h2 : d.name.length ≤ 100 <;>
      cases h3 : isEmail d.email <;>
        by_cases h4 : 8 ≤ d.password.length <;>
          cases h5 : containsUpper d.password <;>
            cases h6 : containsLower d.password <;>
              cases h7 : containsDigit d.password <;>
                simp [safeParse, signUpSchema, checkIssues, FormData.get,
                      h1, h2, h3, h4, h5, h6, h7]

/-- C1 witness: a concrete record violating the constraints is rejected
with the email message among its issues. -/
theorem signUpSchema_spec_witness :
    (FormField.email, "Invalid email address") ∈
      safeParse signUpSchema ⟨"J", "x", "pw"⟩ :=
  (signUpSchema_spec ⟨"J", "x", "pw"⟩).2.2.2.1 (by decide)

/-- C2: when validation fails, `handleSubmit` records a field error for
exactly the fields named in the issues (with a message drawn from those
issues), does not call the auth client, does not navigate, and leaves
loading false. -/
theorem handleSubmit_validation_failure (sch : Schema) (dm rt : String)
    (res : AuthResult) (s : FormState)
    (hval : safeParse sch s.formData ≠ [])
    (hload : s.loading = false) :
    (handleSubmit sch dm rt res s).2.submitCalled = false ∧
    (handleSubmit sch dm rt res s).2.navigatedTo = none ∧
    (handleSubmit sch dm rt res s).1.loading = false ∧
    (∀ f, f ∈ (safeParse sch s.formData).map Prod.fst →
      ∃ m, (handleSubmit sch dm rt res s).1.errors f = some m ∧
        (f, m) ∈ safeParse sch s.formData) ∧
    (∀ f, f ∉ (safeParse sch s.formData).map Prod.fst →
      (handleSubmit sch dm rt res s).1.errors f = none) := by
  refine ⟨?_, ?_, ?_, fun f hf => ?_, fun f hf => ?_⟩
  · simp [handleSubmit, hval]
  · simp [handleSubmit, hval]
  · simp [handleSubmit, hval, hload]
  · simpa [handleSubmit, hval] using errorsOfIssues_mem_of_mem _ f hf
  · simpa [handleSubmit, hval] using errorsOfIssues_eq_none_of_not_mem _ f hf

/-- C2 witness: a concrete invalid sign-up submission calls no auth
client. -/
theorem handleSubmit_validation_failure_witness :
    (handleSubmit signUpSchema "An error occurred" "/" AuthResult.ok
      ⟨⟨"J", "x", "pw"⟩, fun _ => none, "", false⟩).2.submitCalled = false :=
  (handleSubmit_validation_failure signUpSchema "An error occurred" "/"
    AuthResult.ok ⟨⟨"J", "x", "pw"⟩, fun _ => none, "", false⟩
    (by decide) rfl).1

/-- C3: after successful validation, an auth-client error sets the submit
error to the message of the error (falling back to the default message),
resets loading, and does not navigate; navigation to the redirect target
happens exactly when the call returns no error. -/
theorem handleSubmit_auth_outcome (sch : Schema) (dm rt : String) (s : FormState)
    (hval : safeParse sch s.formData = []) :
    (∀ m, (handleSubmit sch dm rt (.err m) s).1.submitError = m.getD dm ∧
      (handleSubmit sch dm rt (.err m) s).1.loading = false ∧
      (handleSubmit sch dm rt (.err m) s).2.navigatedTo = none) ∧
    (handleSubmit sch dm rt .ok s).2.navigatedTo = some rt ∧
    (∀ res, ((handleSubmit sch dm rt res s).2.navigatedTo).isSome = true →
      res = .ok) := by
  refine ⟨fun m => ?_, ?_, fun res h => ?_⟩
  · simp [handleSubmit, hval]
  · simp [handleSubmit, hval]
  · cases res with
    | ok => rfl
    | err m => simp [handleSubmit, hval] at h

/-- C3 witness: a concrete messageless auth failure on the sign-in page
surfaces the fallback message. -/
theorem handleSubmit_auth_outcome_witness :
    (handleSubmit signInSchema "Failed to sign in" "/" (.err none)
      ⟨⟨"", "a@b.co", "x"⟩, fun _ => none, "", false⟩).1.submitError =
      "Failed to sign in" :=
  ((handleSubmit_auth_outcome signInSchema "Failed to sign in" "/"
    ⟨⟨"", "a@b.co", "x"⟩, fun _ => none, "", false⟩ (by decide)).1 none).1

/-- C4: submitting the sign-in form with a malformed email records the
message "Invalid email address" on the email field and does not call the
auth client. -/
theorem signInPage_invalid_email (res : AuthResult) (s : FormState)
    (h : isEmail s.formData.email = false) :
    (signInPageSubmit res s).1.errors .email = some "Invalid email address" ∧
    (signInPageSubmit res s).2.submitCalled = false := by
  cases hp : decide (1 ≤ s.formData.password.length) <;>
    simp [signInPageSubmit, handleSubmit, safeParse, signInSchema,
          checkIssues, errorsOfIssues, FormData.get, h, hp, List.filter]

/-- C4 witness: a concrete malformed email. -/
theorem signInPage_invalid_email_witness :
    (signInPageSubmit AuthResult.ok
      ⟨⟨"", "not-an-email", "pw"⟩, fun _ => none, "", false⟩).1.errors .email =
      some "Invalid email address" :=
  (signInPage_invalid_email AuthResult.ok
    ⟨⟨"", "not-an-email", "pw"⟩, fun _ => none, "", false⟩ (by decide)).1

/-- Field projection after update of the same field. -/
lemma FormData.get_set_same (d : FormData) (f : FormField) (v : String) :
    (d.set f v).get f = v := by
  cases f <;> rfl

/-- Field projection after update of a different field. -/
lemma FormData.get_set_ne (d : FormData) (f g : FormField) (v : String)
    (h : g ≠ f) : (d.set f v).get g = d.get g := by
  cases f <;> cases g <;> simp_all [FormData.get, FormData.set]

/-- C8: `handleChange` sets exactly the named field, leaves every other
field and every other error unchanged, clears at most the named error
(and changes it only when an error was present), and does not touch the
submit error or the loading flag. -/
theorem handleChange_spec (f : FormField) (v : String) (s : FormState) :
    (handleChange f v s).formData.get f = v ∧
    (∀ g, g ≠ f → (handleChange f v s).formData.get g = s.formData.get g) ∧
    (∀ g, g ≠ f → (handleChange f v s).errors g = s.errors g) ∧
    ((handleChange f v s).errors f = none ∨
      (handleChange f v s).errors f = s.errors f) ∧
    ((handleChange f v s).errors f ≠ s.errors f → (s.errors f).isSome = true) ∧
    (handleChange f v s).submitError = s.submitError ∧
    (handleChange f v s).loading = s.loading := by
  refine ⟨?_, fun g hg => ?_, fun g hg => ?_, ?_, fun hne => ?_, ?_, ?_⟩
  · by_cases ht : truthy (s.errors f) = true <;>
      simp [handleChange, ht, FormData.get_set_same]
  · by_cases ht : truthy (s.errors f) = true <;>
      simp [handleChange, ht, FormData.get_set_ne _ _ _ _ hg]
  · by_cases ht : truthy (s.errors f) = true <;>
      simp [handleChange, ht, hg]
  · by_cases ht : truthy (s.errors f) = true
    · left
      simp [handleChange, ht]
    · right
      simp [handleChange, ht]
  · by_cases ht : truthy (s.errors f) = true
    · cases hsf : s.errors f with
      | none => simp [truthy, hsf] at ht
      | some m => simp
    · exact absurd (by simp [handleChange, ht]) hne
  · by_cases ht : truthy (s.errors f) = true <;> simp [handleChange, ht]
  · by_cases ht : truthy (s.errors f) = true <;> simp [handleChange, ht]

/-- C8 witness: changing the email field at a concrete state keeps the
password error. -/
theorem handleChange_spec_witness :
    (handleChange FormField.email "e"
      ⟨⟨"n", "m", "p"⟩, fun _ => some "bad", "boom", true⟩).errors
        FormField.password = some "bad" :=
  (handleChange_spec FormField.email "e"
    ⟨⟨"n", "m", "p"⟩, fun _ => some "bad", "boom", true⟩).2.2.1
    FormField.password (by decide)

/-- C5: the deployment-supplied environment variables of the container are
exactly DATABASE_URL and BETTER_AUTH_SECRET (through secret references
backed by the `databaseUrl` and `betterAuthSecret` parameters) and
BETTER_AUTH_URL and APPLICATIONINSIGHTS_CONNECTION_STRING (as plain
parameter values); the Prisma migrate adapter errors when DATABASE_URL is
unset and succeeds on any nonempty connection string. -/
theorem env_interface_spec :
    (containerAppEnv.filter (fun e => e.isInput)).map (fun e => (e.name, e.src)) =
      [("DATABASE_URL", .secretRef "database-url"),
       ("BETTER_AUTH_SECRET", .secretRef "better-auth-secret"),
       ("BETTER_AUTH_URL", .paramRef "betterAuthUrl"),
       ("APPLICATIONINSIGHTS_CONNECTION_STRING", .paramRef "appInsightsConnectionString")] ∧
    ((containerAppSecrets.find? fun p => p.1 = "database-url").map (·.2) =
      some "databaseUrl") ∧
    ((containerAppSecrets.find? fun p => p.1 = "better-auth-secret").map (·.2) =
      some "betterAuthSecret") ∧
    prismaMigrateAdapter none =
      .error "DATABASE_URL environment variable is not set" ∧
    (∀ cs, cs ≠ "" → prismaMigrateAdapter (some cs) = .ok cs) := by
  refine ⟨by decide, by decide, by decide, rfl, fun cs h => ?_⟩
  simp [prismaMigrateAdapter, h]

/-- C5 witness: the adapter succeeds on a concrete connection string. -/
theorem env_interface_spec_witness :
    prismaMigrateAdapter (some "postgresql://u:p@h:5432/app") =
      .ok "postgresql://u:p@h:5432/app" :=
  env_interface_spec.2.2.2.2 "postgresql://u:p@h:5432/app" (by decide)

/-- C6: the infrastructure modules form a dependency graph ordered
identity, registry, monitoring, database, compute: the registry consumes
only the identity principal, the compute stage consumes the identity id,
the registry login server, the three monitoring outputs and the database
connection string, every consumed name is an output of its source stage,
and every cross-stage edge goes from an earlier to a later stage. -/
theorem infra_stage_graph :
    (∀ r ∈ stageDeps .registry, r.src = .identity ∧ r.output = "principalId") ∧
    ((stageDeps .compute).map fun r => (r.src, r.output)) =
      [(.identity, "identityId"), (.registry, "loginServer"),
       (.monitoring, "logAnalyticsCustomerId"),
       (.monitoring, "logAnalyticsSharedKey"),
       (.monitoring, "appInsightsConnectionString"),
       (.database, "connectionString")] ∧
    (∀ s : Stage, ∀ r ∈ stageDeps s, r.output ∈ stageOutputs r.src) ∧
    (∀ s : Stage, ∀ r ∈ stageDeps s, r.src.idx < s.idx) := by
  refine ⟨by decide, by decide, fun s => ?_, fun s => ?_⟩ <;> cases s <;> decide

/-- C6 witness: the compute stage sits strictly after the identity stage,
whose id it consumes. -/
theorem infra_stage_graph_witness :
    Stage.idx Stage.identity < Stage.idx Stage.compute :=
  infra_stage_graph.2.2.2 Stage.compute
    ⟨"identityId", Stage.identity, "identityId"⟩ (by decide)

/-- C7: each of the deployment parameters application name, environment
tier, region, container image reference, and the two database
credentials is consumed by some resource declaration of the template
set. -/
theorem deployment_parameters_consumed :
    ∀ p ∈ ["appName", "environment", "location", "containerImage",
           "administratorLogin", "administratorPassword"],
      ∃ r ∈ deploymentResources, p ∈ r.refs := by
  decide

/-- C7 witness: the container image parameter is consumed. -/
theorem deployment_parameters_consumed_witness :
    ∃ r ∈ deploymentResources, "containerImage" ∈ r.refs :=
  deployment_parameters_consumed "containerImage" (by decide)

/-- C9: for every admitted environment value the SKU lookup succeeds, the
selected tier is GeneralPurpose with 128 GB storage exactly when the
environment is prod, and otherwise the tier is Burstable. -/
theorem dbSku_selection (env : String) (h : env ∈ allowedEnvironments) :
    ∃ sku, lookupSku env = some sku ∧
      ((sku.tier = "GeneralPurpose" ∧ sku.storageSizeGB = 128) ↔ env = "prod") ∧
      (env ≠ "prod" → sku.tier = "Burstable") := by
  simp only [allowedEnvironments, List.mem_cons, List.not_mem_nil, or_false] at h
  rcases h with rfl | rfl | rfl | rfl <;>
    exact ⟨_, rfl, by decide, by decide⟩

/-- C9 witness: the prod environment selects the GeneralPurpose SKU. -/
theorem dbSku_selection_witness :
    ∃ sku, lookupSku "prod" = some sku ∧
      ((sku.tier = "GeneralPurpose" ∧ sku.storageSizeGB = 128) ↔ ("prod" : String) = "prod") ∧
      (("prod" : String) ≠ "prod" → sku.tier = "Burstable") :=
  dbSku_selection "prod" (by decide)

/-- C10: the derived storage account name never exceeds 24 characters. -/
theorem storageAccountName_length_le (appName environment regionCode : String) :
    (storageAccountName appName environment regionCode).length ≤ 24 := by
  have h := List.length_take 24
    ("st" ++ sanitizedAppName appName ++ environment ++ regionCode).data
  show (List.take 24
    ("st" ++ sanitizedAppName appName ++ environment ++ regionCode).data).length ≤ 24
  omega

end NextTemplate
